import Mathlib

set_option autoImplicit false

/-! Verification of the hand-written LSTM / GRU recurrent cells.

Shallow embedding of the notebook's `LSTMCell`, `GRUCell`, `LSTMModel` and
`GRUModel` classes.  Tensors are modelled over the reals: a vector of width
`n` is `Fin n → ℝ`, a batch of vectors is `Fin B → Fin n → ℝ`, and a batch
of sequences is `Fin B → Fin T → Fin n → ℝ`.  `torch.nn.Linear` becomes the
`Linear` structure below, and every batched tensor operation used by the
cells (`Linear` application, `+`, `chunk(4, 1)`, `sigmoid`, `tanh`,
`torch.mul`) acts row-by-row on the batch dimension, so the batched cell
step is the row-wise lift of the single-row step.
-/

/-- Logistic sigmoid `1/(1+e^-x)`, the function computed elementwise by
`Tensor.sigmoid` / `torch.sigmoid`. -/
noncomputable def sigmoid (x : ℝ) : ℝ := 1 / (1 + Real.exp (-x))

/-- Translation of `torch.nn.Linear(inF, outF)`: a learned weight matrix (`outF × inF`,
torch stores it transposed) and a bias vector of width `outF`. -/
structure Linear (inF outF : ℕ) where
  weight : Fin outF → Fin inF → ℝ
  bias : Fin outF → ℝ

/-- Application of a `torch.nn.Linear` to one row: `x · Wᵀ + b`. -/
def Linear.apply {inF outF : ℕ} (l : Linear inF outF) (x : Fin inF → ℝ) :
    Fin outF → ℝ :=
  fun j => (∑ i, l.weight j i * x i) + l.bias j

/-- Application of a `torch.nn.Linear` to a batch of rows: the bias is
broadcast across the batch dimension, each row is transformed
independently. -/
def Linear.applyB {B inF outF : ℕ} (l : Linear inF outF)
    (x : Fin B → Fin inF → ℝ) : Fin B → Fin outF → ℝ :=
  fun b => l.apply (x b)

lemma chunk_index_lt {n k j : ℕ} (hk : k < 4) (hj : j < n) :
    k * n + j < 4 * n := by
  have h1 : k * n + j < (k + 1) * n := by
    have := Nat.add_lt_add_left hj (k * n)
    calc k * n + j < k * n + n := this
    _ = (k + 1) * n := by ring
  exact lt_of_lt_of_le h1 (Nat.mul_le_mul_right n hk)

/-- Translation of `gates.chunk(4, 1)` on a row of width `4*n`: chunk `k` is the
contiguous block of columns `[k*n, (k+1)*n)`. -/
def chunk4 (n : ℕ) (g : Fin (4 * n) → ℝ) (k : Fin 4) (j : Fin n) : ℝ :=
  g ⟨k.val * n + j.val, chunk_index_lt k.isLt j.isLt⟩

/-! ## LSTMCell (notebook cell 3)

`__init__` stores `x_fc = Linear(input_size, 4*hidden_size)` and
`h_fc = Linear(hidden_size, 4*hidden_size)` and then calls
`reset_parameters`.  `forward(x_t, (h_t_1, c_t_1))` flattens the inputs to
two dimensions (an identity on the 2-D batches modelled here), computes
`gates = x_fc(x_t) + h_fc(h_t_1)`, splits with `gates.chunk(4, 1)` into
`i_t, f_t, candidate_c_t, o_t`, activates them with sigmoid, sigmoid, tanh,
sigmoid, and returns `h_t = o_t * tanh(c_t)` and
`c_t = f_t * c_t_1 + i_t * candidate_c_t`. -/

structure LSTMCell (input_size hidden_size : ℕ) where
  x_fc : Linear input_size (4 * hidden_size)
  h_fc : Linear hidden_size (4 * hidden_size)

namespace LSTMCell

variable {nin nh : ℕ}

/-- Translation of `gates = self.x_fc(x_t) + self.h_fc(h_t_1)`, one row. -/
def gates (cell : LSTMCell nin nh) (x : Fin nin → ℝ) (h : Fin nh → ℝ) :
    Fin (4 * nh) → ℝ :=
  fun m => cell.x_fc.apply x m + cell.h_fc.apply h m

/-- Input gate `i_t`: chunk 0 of `gates`, through sigmoid. -/
noncomputable def i_t (cell : LSTMCell nin nh) (x : Fin nin → ℝ) (h : Fin nh → ℝ)
    (j : Fin nh) : ℝ :=
  sigmoid (chunk4 nh (cell.gates x h) 0 j)

/-- Forget gate `f_t`: chunk 1 of `gates`, through sigmoid. -/
noncomputable def f_t (cell : LSTMCell nin nh) (x : Fin nin → ℝ) (h : Fin nh → ℝ)
    (j : Fin nh) : ℝ :=
  sigmoid (chunk4 nh (cell.gates x h) 1 j)

/-- Candidate state `candidate_c_t`: chunk 2 of `gates`, through tanh. -/
noncomputable def candidate_c_t (cell : LSTMCell nin nh) (x : Fin nin → ℝ)
    (h : Fin nh → ℝ) (j : Fin nh) : ℝ :=
  Real.tanh (chunk4 nh (cell.gates x h) 2 j)

/-- Output gate `o_t`: chunk 3 of `gates`, through sigmoid. -/
noncomputable def o_t (cell : LSTMCell nin nh) (x : Fin nin → ℝ) (h : Fin nh → ℝ)
    (j : Fin nh) : ℝ :=
  sigmoid (chunk4 nh (cell.gates x h) 3 j)

/-- New memory state `c_t = torch.mul(f_t, c_t_1) + torch.mul(i_t, candidate_c_t)`. -/
noncomputable def c_t (cell : LSTMCell nin nh) (x : Fin nin → ℝ) (h c : Fin nh → ℝ)
    (j : Fin nh) : ℝ :=
  cell.f_t x h j * c j + cell.i_t x h j * cell.candidate_c_t x h j

/-- One `LSTMCell.forward` step on a single batch row; returns `(h_t, c_t)`. -/
noncomputable def forward (cell : LSTMCell nin nh) (x : Fin nin → ℝ) (h c : Fin nh → ℝ) :
    (Fin nh → ℝ) × (Fin nh → ℝ) :=
  (fun j => cell.o_t x h j * Real.tanh (cell.c_t x h c j), cell.c_t x h c)

/-- Translation of `LSTMCell.forward` on a whole batch: every tensor operation in the body
acts row-wise, so the batched step is the row-wise lift of `forward`. -/
noncomputable def forwardB {B : ℕ} (cell : LSTMCell nin nh) (x : Fin B → Fin nin → ℝ)
    (h c : Fin B → Fin nh → ℝ) :
    (Fin B → Fin nh → ℝ) × (Fin B → Fin nh → ℝ) :=
  (fun b => (cell.forward (x b) (h b) (c b)).1,
   fun b => (cell.forward (x b) (h b) (c b)).2)

end LSTMCell

/-! ## Activation range facts -/

lemma exp_neg_pos (x : ℝ) : 0 < Real.exp (-x) := Real.exp_pos _

lemma one_lt_one_add_exp_neg (x : ℝ) : 1 < 1 + Real.exp (-x) := by
  linarith [exp_neg_pos x]

lemma sigmoid_pos (x : ℝ) : 0 < sigmoid x := by
  unfold sigmoid
  positivity

lemma sigmoid_lt_one (x : ℝ) : sigmoid x < 1 := by
  unfold sigmoid
  rw [div_lt_one (by linarith [exp_neg_pos x])]
  exact one_lt_one_add_exp_neg x

lemma neg_cosh_lt_sinh (x : ℝ) : -Real.cosh x < Real.sinh x := by
  have h := Real.sinh_lt_cosh (-x)
  rw [Real.sinh_neg, Real.cosh_neg] at h
  linarith

lemma tanh_lt_one (x : ℝ) : Real.tanh x < 1 := by
  rw [Real.tanh_eq_sinh_div_cosh, div_lt_one (Real.cosh_pos x)]
  exact Real.sinh_lt_cosh x

lemma neg_one_lt_tanh (x : ℝ) : -1 < Real.tanh x := by
  rw [Real.tanh_eq_sinh_div_cosh, lt_div_iff₀ (Real.cosh_pos x)]
  have := neg_cosh_lt_sinh x
  linarith

/-! ## GRUCell (notebook cell 6)

`__init__` stores six `torch.nn.Linear` layers (`x_r_fc`, `x_z_fc`,
`x_h_fc` of shape `input_size → hidden_size`; `h_r_fc`, `h_z_fc`,
`hr_h_fc` of shape `hidden_size → hidden_size`) and — unlike `LSTMCell` —
performs no re-initialization of its own (there is no `reset_parameters`
in `GRUCell`).  `forward(x_t, h_t_1)` computes
`z_t = sigmoid(x_z_fc(x_t) + h_z_fc(h_t_1))`,
`r_t = sigmoid(x_r_fc(x_t) + h_r_fc(h_t_1))`,
`candidate_h_t = tanh(x_h_fc(x_t) + hr_h_fc(r_t * h_t_1))` and returns
`h_t = z_t * h_t_1 + (1 - z_t) * candidate_h_t`. -/

structure GRUCell (input_size hidden_size : ℕ) where
  x_r_fc : Linear input_size hidden_size
  x_z_fc : Linear input_size hidden_size
  x_h_fc : Linear input_size hidden_size
  h_r_fc : Linear hidden_size hidden_size
  h_z_fc : Linear hidden_size hidden_size
  hr_h_fc : Linear hidden_size hidden_size

namespace GRUCell

variable {nin nh : ℕ}

/-- Update gate `z_t = torch.sigmoid(self.x_z_fc(x_t) + self.h_z_fc(h_t_1))`. -/
noncomputable def z_t (cell : GRUCell nin nh) (x : Fin nin → ℝ)
    (h : Fin nh → ℝ) (j : Fin nh) : ℝ :=
  sigmoid (cell.x_z_fc.apply x j + cell.h_z_fc.apply h j)

/-- Reset gate `r_t = torch.sigmoid(self.x_r_fc(x_t) + self.h_r_fc(h_t_1))`. -/
noncomputable def r_t (cell : GRUCell nin nh) (x : Fin nin → ℝ)
    (h : Fin nh → ℝ) (j : Fin nh) : ℝ :=
  sigmoid (cell.x_r_fc.apply x j + cell.h_r_fc.apply h j)

/-- Candidate state
`candidate_h_t = torch.tanh(self.x_h_fc(x_t) + self.hr_h_fc(torch.mul(r_t, h_t_1)))`. -/
noncomputable def candidate_h_t (cell : GRUCell nin nh) (x : Fin nin → ℝ)
    (h : Fin nh → ℝ) (j : Fin nh) : ℝ :=
  Real.tanh (cell.x_h_fc.apply x j
    + cell.hr_h_fc.apply (fun i => cell.r_t x h i * h i) j)

/-- One `GRUCell.forward` step on a single batch row; returns `h_t`. -/
noncomputable def forward (cell : GRUCell nin nh) (x : Fin nin → ℝ)
    (h : Fin nh → ℝ) : Fin nh → ℝ :=
  fun j => cell.z_t x h j * h j + (1 - cell.z_t x h j) * cell.candidate_h_t x h j

/-- Translation of `GRUCell.forward` on a whole batch: every tensor operation in the body
acts row-wise, so the batched step is the row-wise lift of `forward`. -/
noncomputable def forwardB {B : ℕ} (cell : GRUCell nin nh)
    (x : Fin B → Fin nin → ℝ) (h : Fin B → Fin nh → ℝ) :
    Fin B → Fin nh → ℝ :=
  fun b => cell.forward (x b) (h b)

end GRUCell

/-! ## LSTMModel (notebook cell 5) and GRUModel (notebook cell 7)

Each model owns one cell and one fully-connected output layer
`fc = Linear(hidden_size, output_size)`.  `forward(x)` for a batch of
sequences `x` (batch × time × input) starts from zero state, runs
`for seq in range(x.size(1)): state = cell(x[:, seq, :], state)` and
returns `self.fc(h_t)` applied to the final hidden state. -/

structure LSTMModel (input_size hidden_size output_size : ℕ) where
  lstm : LSTMCell input_size hidden_size
  fc : Linear hidden_size output_size

structure GRUModel (input_size hidden_size output_size : ℕ) where
  gru : GRUCell input_size hidden_size
  fc : Linear hidden_size output_size

namespace LSTMModel

variable {nin nh nout : ℕ}

/-- The `for seq in range(x.size(1))` loop of `LSTMModel.forward`: fold the
cell step over time indices `0, 1, …, T-1` in increasing order, starting
from the zero `(h_t, c_t)` pair, threading the returned state into the
next call. -/
noncomputable def states {B T : ℕ} (m : LSTMModel nin nh nout)
    (x : Fin B → Fin T → Fin nin → ℝ) :
    (Fin B → Fin nh → ℝ) × (Fin B → Fin nh → ℝ) :=
  Fin.foldl T (fun st seq => m.lstm.forwardB (fun b => x b seq) st.1 st.2)
    (fun _ _ => 0, fun _ _ => 0)

/-- Translation of `LSTMModel.forward`: run the loop, then the output layer on the final
hidden state. -/
noncomputable def forward {B T : ℕ} (m : LSTMModel nin nh nout)
    (x : Fin B → Fin T → Fin nin → ℝ) : Fin B → Fin nout → ℝ :=
  m.fc.applyB (m.states x).1

end LSTMModel

namespace GRUModel

variable {nin nh nout : ℕ}

/-- The `for seq in range(x.size(1))` loop of `GRUModel.forward`: fold the
cell step over time indices in increasing order from the zero hidden
state. -/
noncomputable def states {B T : ℕ} (m : GRUModel nin nh nout)
    (x : Fin B → Fin T → Fin nin → ℝ) : Fin B → Fin nh → ℝ :=
  Fin.foldl T (fun h seq => m.gru.forwardB (fun b => x b seq) h) (fun _ _ => 0)

/-- Translation of `GRUModel.forward`: run the loop, then the output layer on the final
hidden state. -/
noncomputable def forward {B T : ℕ} (m : GRUModel nin nh nout)
    (x : Fin B → Fin T → Fin nin → ℝ) : Fin B → Fin nout → ℝ :=
  m.fc.applyB (m.states x)

end GRUModel

/-! ## Spec-side formulations (for refinement checks)

The following definitions are written from the specification's wording
(§4.3, §4.4, §4.5), to be compared with the translations of the code
above. -/

namespace LSTMSpec

variable {nin nh : ℕ}

/-- Spec §4.3 step 1, written out elementwise:
`gates = AffineProjection_x.apply(x_t) + AffineProjection_h.apply(h_{t-1})`,
a single row of width `4·hidden_size`. -/
noncomputable def preact (cell : LSTMCell nin nh) (x : Fin nin → ℝ)
    (h : Fin nh → ℝ) (m : Fin (4 * nh)) : ℝ :=
  ((∑ i, cell.x_fc.weight m i * x i) + cell.x_fc.bias m)
    + ((∑ i, cell.h_fc.weight m i * h i) + cell.h_fc.bias m)

/-- Spec §4.3 steps 2–4 as stated: four equal contiguous blocks in fixed
order `i, f, g, o` at column offsets `0, nh, 2·nh, 3·nh`; then
`c_t = sigmoid(f) ⊙ c_{t-1} + sigmoid(i) ⊙ tanh(g)`. -/
noncomputable def c_t (cell : LSTMCell nin nh) (x : Fin nin → ℝ)
    (h c : Fin nh → ℝ) (j : Fin nh) : ℝ :=
  sigmoid (preact cell x h ⟨nh + j.val, by have := j.isLt; omega⟩) * c j
    + sigmoid (preact cell x h ⟨j.val, by have := j.isLt; omega⟩)
      * Real.tanh (preact cell x h ⟨2 * nh + j.val, by have := j.isLt; omega⟩)

/-- Spec §4.3 step 5 as stated: `h_t = sigmoid(o) ⊙ tanh(c_t)` with `o` the
fourth block, at column offset `3·nh`. -/
noncomputable def h_t (cell : LSTMCell nin nh) (x : Fin nin → ℝ)
    (h c : Fin nh → ℝ) (j : Fin nh) : ℝ :=
  sigmoid (preact cell x h ⟨3 * nh + j.val, by have := j.isLt; omega⟩)
    * Real.tanh (c_t cell x h c j)

end LSTMSpec

namespace GRUSpec

variable {nin nh : ℕ}

/-- Spec §4.4 as stated, written out elementwise:
`z_t = sigmoid(Wxz·x_t + Whz·h_{t-1})`,
`r_t = sigmoid(Wxr·x_t + Whr·h_{t-1})`,
`candidate = tanh(Wxh·x_t + Whh·(r_t ⊙ h_{t-1}))` (the reset gate
attenuates the previous hidden state before it enters the candidate), and
`h_t = z_t ⊙ h_{t-1} + (1 - z_t) ⊙ candidate`. -/
noncomputable def h_t (cell : GRUCell nin nh) (x : Fin nin → ℝ)
    (h : Fin nh → ℝ) (j : Fin nh) : ℝ :=
  let z := fun j' : Fin nh => sigmoid
    (((∑ i, cell.x_z_fc.weight j' i * x i) + cell.x_z_fc.bias j')
      + ((∑ i, cell.h_z_fc.weight j' i * h i) + cell.h_z_fc.bias j'))
  let r := fun j' : Fin nh => sigmoid
    (((∑ i, cell.x_r_fc.weight j' i * x i) + cell.x_r_fc.bias j')
      + ((∑ i, cell.h_r_fc.weight j' i * h i) + cell.h_r_fc.bias j'))
  let cand := fun j' : Fin nh => Real.tanh
    (((∑ i, cell.x_h_fc.weight j' i * x i) + cell.x_h_fc.bias j')
      + ((∑ i, cell.hr_h_fc.weight j' i * (r i * h i)) + cell.hr_h_fc.bias j'))
  z j * h j + (1 - z j) * cand j

end GRUSpec

/-- Spec §4.5 as stated, for the LSTM cell: zero state for an empty
sequence; for `T+1` steps, the state after the first `T` steps, then one
more cell invocation on the last time slice (so steps run in strictly
increasing order, each observing the state of the previous one). -/
noncomputable def LSTMSpec.stateRec {nin nh B : ℕ} (cell : LSTMCell nin nh) :
    (T : ℕ) → (Fin B → Fin T → Fin nin → ℝ) →
      (Fin B → Fin nh → ℝ) × (Fin B → Fin nh → ℝ)
  | 0, _ => (fun _ _ => 0, fun _ _ => 0)
  | T + 1, x =>
    let prev := stateRec cell T (fun b t => x b t.castSucc)
    cell.forwardB (fun b => x b (Fin.last T)) prev.1 prev.2

/-- Spec §4.5 as stated, for the GRU cell. -/
noncomputable def GRUSpec.stateRec {nin nh B : ℕ} (cell : GRUCell nin nh) :
    (T : ℕ) → (Fin B → Fin T → Fin nin → ℝ) → (Fin B → Fin nh → ℝ)
  | 0, _ => fun _ _ => 0
  | T + 1, x =>
    cell.forwardB (fun b => x b (Fin.last T))
      (stateRec cell T (fun b t => x b t.castSucc))

/-! ## Parameter initialization (notebook cells 3 and 6)

`LSTMCell.__init__` ends with `self.reset_parameters()`, which computes
`size = math.sqrt(3.0 / self.hidden_size)` and runs
`weight.data.uniform_(-size, size)` over every parameter tensor of the
cell.  `GRUCell.__init__` stores its six `torch.nn.Linear` layers as the
framework constructed them and applies no initialization of its own. -/

/-- Translation of `size = math.sqrt(3.0 / self.hidden_size)` from
`LSTMCell.reset_parameters`. -/
noncomputable def lstmInitScale (nh : ℕ) : ℝ := Real.sqrt (3 / nh)

/-- One unit draw per parameter entry of an `LSTMCell` (the randomness
consumed by `uniform_`): a draw from `[-s, s]` is `s` times a draw from
`[-1, 1]`. -/
structure LSTMDraw (nin nh : ℕ) where
  xw : Fin (4 * nh) → Fin nin → ℝ
  xb : Fin (4 * nh) → ℝ
  hw : Fin (4 * nh) → Fin nh → ℝ
  hb : Fin (4 * nh) → ℝ

/-- Translation of `LSTMCell.reset_parameters`: every parameter tensor of the cell — the
weights and biases of both `x_fc` and `h_fc` — is overwritten with
`uniform_(-size, size)`, i.e. `size * u` for a unit draw `u ∈ [-1, 1]`. -/
noncomputable def LSTMCell.reset_parameters (nin nh : ℕ) (u : LSTMDraw nin nh) :
    LSTMCell nin nh :=
  { x_fc := { weight := fun j i => lstmInitScale nh * u.xw j i,
              bias := fun j => lstmInitScale nh * u.xb j },
    h_fc := { weight := fun j i => lstmInitScale nh * u.hw j i,
              bias := fun j => lstmInitScale nh * u.hb j } }

/-- Translation of `GRUCell.__init__`: the six framework-constructed `Linear` layers are
stored unchanged; the class has no `reset_parameters` and performs no
re-initialization of its own. -/
def GRUCell.construct (nin nh : ℕ) (x_r x_z x_h : Linear nin nh)
    (h_r h_z hr_h : Linear nh nh) : GRUCell nin nh :=
  ⟨x_r, x_z, x_h, h_r, h_z, hr_h⟩

/-- A `Linear` layer whose entries are all the constant `v` (stands for a
framework-initialized layer in counterexamples). -/
def constLin (v : ℝ) (inF outF : ℕ) : Linear inF outF :=
  ⟨fun _ _ => v, fun _ => v⟩

/-! ## Error behaviour and explicit object threading -/

/-- The single error class of the spec's §7 (`ShapeMismatchError`), plus the
failure of a cell called without a previous state (`None` reaching tensor
operations). -/
inductive TensorError
  | shapeMismatch
  | noneState
deriving DecidableEq

/-- Translation of `LSTMCell.forward` on an input tensor whose last-dimension width `k` is
part of its metadata.  The arithmetic is `forwardB` above; the width check
`k = input_size` is the shape validation performed when `self.x_fc` is
applied to `x_t`.  Modelled from the spec: "input_batch's last dimension
must equal the projection's declared input dimension; violating this is a
dimension-mismatch error" (§4.2), raised as `ShapeMismatchError` (§7) —
the check itself lives in the external framework's `Linear`, not under
src. -/
noncomputable def LSTMCell.forwardChecked {nin nh B k : ℕ}
    (cell : LSTMCell nin nh) (x : Fin B → Fin k → ℝ)
    (h c : Fin B → Fin nh → ℝ) :
    Except TensorError ((Fin B → Fin nh → ℝ) × (Fin B → Fin nh → ℝ)) :=
  if hk : k = nin then
    .ok (cell.forwardB (fun b i => x b (Fin.cast hk.symm i)) h c)
  else .error .shapeMismatch

/-- Translation of `LSTMModel.forward` with the width check of each cell call and with the
Python object threaded explicitly: the loop binds each step's result (an
exception propagates immediately, skipping the remaining steps and the
output layer), and the method assigns no attribute of `self`, so the
object component is carried through unchanged. -/
noncomputable def LSTMModel.forwardChecked {nin nh nout B T k : ℕ}
    (m : LSTMModel nin nh nout) (x : Fin B → Fin T → Fin k → ℝ) :
    Except TensorError (Fin B → Fin nout → ℝ) × LSTMModel nin nh nout :=
  let r := Fin.foldl T
    (fun st seq =>
      (st.1.bind (fun s => st.2.lstm.forwardChecked (fun b => x b seq) s.1 s.2),
       st.2))
    (Except.ok (fun _ _ => 0, fun _ _ => 0), m)
  ((r.1).map (fun s => r.2.fc.applyB s.1), r.2)

/-- Translation of `LSTMCell.forward` with the Python object threaded explicitly: the
method body reads `self.x_fc` and `self.h_fc` and assigns no attribute of
`self`, so the returned object is the received one. -/
noncomputable def LSTMCell.forwardS {nin nh B : ℕ} (cell : LSTMCell nin nh)
    (x : Fin B → Fin nin → ℝ) (h c : Fin B → Fin nh → ℝ) :
    ((Fin B → Fin nh → ℝ) × (Fin B → Fin nh → ℝ)) × LSTMCell nin nh :=
  (cell.forwardB x h c, cell)

/-- Translation of `GRUCell.forward` with the Python object threaded explicitly: the body
reads the six layers and assigns no attribute of `self`. -/
noncomputable def GRUCell.forwardS {nin nh B : ℕ} (cell : GRUCell nin nh)
    (x : Fin B → Fin nin → ℝ) (h : Fin B → Fin nh → ℝ) :
    (Fin B → Fin nh → ℝ) × GRUCell nin nh :=
  (cell.forwardB x h, cell)

/-- Translation of `LSTMModel.forward` with the Python object threaded explicitly through
the loop and the output layer. -/
noncomputable def LSTMModel.forwardS {nin nh nout B T : ℕ}
    (m : LSTMModel nin nh nout) (x : Fin B → Fin T → Fin nin → ℝ) :
    (Fin B → Fin nout → ℝ) × LSTMModel nin nh nout :=
  let r := Fin.foldl T
    (fun st seq => ((st.2.lstm.forwardS (fun b => x b seq) st.1.1 st.1.2).1,
                    st.2))
    ((fun _ _ => 0, fun _ _ => 0), m)
  (r.2.fc.applyB r.1.1, r.2)

/-- Translation of `GRUModel.forward` with the Python object threaded explicitly. -/
noncomputable def GRUModel.forwardS {nin nh nout B T : ℕ}
    (m : GRUModel nin nh nout) (x : Fin B → Fin T → Fin nin → ℝ) :
    (Fin B → Fin nout → ℝ) × GRUModel nin nh nout :=
  let r := Fin.foldl T
    (fun st seq => ((st.2.gru.forwardS (fun b => x b seq) st.1).1, st.2))
    ((fun _ _ => 0), m)
  (r.2.fc.applyB r.1, r.2)

/-- Translation of `LSTMCell.forward` with the defaultable `hidden` argument made
explicit: the Python signature defaults `hidden` to `(None, None)`, and
the body immediately calls `h_t_1.view(...)` and `c_t_1.view(...)`, which
fail on `None` (an `AttributeError`, modelled as `TensorError.noneState`);
no branch of the method zero-initializes a missing state. -/
noncomputable def LSTMCell.forwardOpt {nin nh B : ℕ} (cell : LSTMCell nin nh)
    (x : Fin B → Fin nin → ℝ)
    (hidden : Option (Fin B → Fin nh → ℝ) × Option (Fin B → Fin nh → ℝ)) :
    Except TensorError ((Fin B → Fin nh → ℝ) × (Fin B → Fin nh → ℝ)) :=
  match hidden with
  | (some h, some c) => .ok (cell.forwardB x h c)
  | _ => .error .noneState

/-- Translation of `GRUCell.forward` with the defaultable `h_t_1` argument made explicit:
the signature defaults `h_t_1` to `None`, and the body immediately feeds
it to `self.h_z_fc`, which fails on `None` (a `TypeError`, modelled as
`TensorError.noneState`); no branch zero-initializes a missing state. -/
noncomputable def GRUCell.forwardOpt {nin nh B : ℕ} (cell : GRUCell nin nh)
    (x : Fin B → Fin nin → ℝ) (h : Option (Fin B → Fin nh → ℝ)) :
    Except TensorError (Fin B → Fin nh → ℝ) :=
  match h with
  | some h => .ok (cell.forwardB x h)
  | none => .error .noneState

/-- Translation of `LSTMModel.forward` written through the defaultable-argument cell entry
point: the loop always passes the explicitly constructed state pair
`(h_t, c_t)` (zeros on the first step), never relying on the cell's
default. -/
noncomputable def LSTMModel.forwardViaOpt {nin nh nout B T : ℕ}
    (m : LSTMModel nin nh nout) (x : Fin B → Fin T → Fin nin → ℝ) :
    Except TensorError (Fin B → Fin nout → ℝ) :=
  (Fin.foldl T
    (fun st seq => st.bind
      (fun s => m.lstm.forwardOpt (fun b => x b seq) (some s.1, some s.2)))
    (Except.ok (fun _ _ => 0, fun _ _ => 0))).map
    (fun s => m.fc.applyB s.1)

/-- Translation of `GRUModel.forward` written through the defaultable-argument cell entry
point: the loop always passes the explicitly carried hidden state (zeros
on the first step), never relying on the cell's default. -/
noncomputable def GRUModel.forwardViaOpt {nin nh nout B T : ℕ}
    (m : GRUModel nin nh nout) (x : Fin B → Fin T → Fin nin → ℝ) :
    Except TensorError (Fin B → Fin nout → ℝ) :=
  (Fin.foldl T
    (fun st seq => st.bind
      (fun s => m.gru.forwardOpt (fun b => x b seq) (some s)))
    (Except.ok (fun _ _ => 0))).map (fun s => m.fc.applyB s)

/-! ## Helper lemmas -/

lemma chunk4_c0 {n : ℕ} (g : Fin (4 * n) → ℝ) (j : Fin n) :
    chunk4 n g 0 j = g ⟨j.val, by have := j.isLt; omega⟩ := by
  unfold chunk4
  congr 1
  apply Fin.ext
  show (0 : Fin 4).val * n + j.val = j.val
  have hv : (0 : Fin 4).val = 0 := rfl
  rw [hv]; ring

lemma chunk4_c1 {n : ℕ} (g : Fin (4 * n) → ℝ) (j : Fin n) :
    chunk4 n g 1 j = g ⟨n + j.val, by have := j.isLt; omega⟩ := by
  unfold chunk4
  congr 1
  apply Fin.ext
  show (1 : Fin 4).val * n + j.val = n + j.val
  have hv : (1 : Fin 4).val = 1 := rfl
  rw [hv]; ring

lemma chunk4_c2 {n : ℕ} (g : Fin (4 * n) → ℝ) (j : Fin n) :
    chunk4 n g 2 j = g ⟨2 * n + j.val, by have := j.isLt; omega⟩ := rfl

lemma chunk4_c3 {n : ℕ} (g : Fin (4 * n) → ℝ) (j : Fin n) :
    chunk4 n g 3 j = g ⟨3 * n + j.val, by have := j.isLt; omega⟩ := rfl

lemma foldl_pair {α β : Type*} :
    ∀ {T : ℕ} (g : α × β → Fin T → α) (a0 : α) (b : β),
      Fin.foldl T (fun st i => (g st i, st.2)) (a0, b)
        = (Fin.foldl T (fun a i => g (a, b) i) a0, b) := by
  intro T
  induction T with
  | zero => intro g a0 b; simp
  | succ T ih =>
    intro g a0 b
    rw [Fin.foldl_succ, Fin.foldl_succ]
    exact ih (fun st i => g st i.succ) (g (a0, b) 0) b

lemma foldl_bind_ok {α E : Type*} :
    ∀ {T : ℕ} (g : α → Fin T → α) (a0 : α),
      Fin.foldl T (fun st i => st.bind (fun s => (Except.ok (g s i) : Except E α)))
          (Except.ok a0)
        = Except.ok (Fin.foldl T g a0) := by
  intro T
  induction T with
  | zero => intro g a0; simp
  | succ T ih =>
    intro g a0
    rw [Fin.foldl_succ, Fin.foldl_succ]
    exact ih (fun s i => g s i.succ) (g a0 0)

lemma foldl_bind_error {α E : Type*} :
    ∀ {T : ℕ} (F : α → Fin T → Except E α) (e : E),
      Fin.foldl T (fun st i => st.bind (fun s => F s i)) (Except.error e)
        = Except.error e := by
  intro T
  induction T with
  | zero => intro F e; simp
  | succ T ih =>
    intro F e
    rw [Fin.foldl_succ]
    exact ih (fun s i => F s i.succ) e

lemma foldl_bind_const_error {α E : Type*} {T : ℕ}
    (F : α → Fin (T + 1) → Except E α) (e : E)
    (hF : ∀ s i, F s i = Except.error e) (a0 : α) :
    Fin.foldl (T + 1) (fun st i => st.bind (fun s => F s i)) (Except.ok a0)
      = Except.error e := by
  rw [Fin.foldl_succ]
  rw [show (Except.ok a0 : Except E α).bind (fun s => F s 0) = Except.error e
    from hF a0 0]
  exact foldl_bind_error (fun s i => F s i.succ) e

lemma lstm_fold_eq_rec {nin nh B : ℕ} (cell : LSTMCell nin nh) :
    ∀ {T : ℕ} (x : Fin B → Fin T → Fin nin → ℝ),
      Fin.foldl T (fun st seq => cell.forwardB (fun b => x b seq) st.1 st.2)
          (fun _ _ => 0, fun _ _ => 0)
        = LSTMSpec.stateRec cell T x := by
  intro T
  induction T with
  | zero => intro x; simp [LSTMSpec.stateRec]
  | succ T ih =>
    intro x
    rw [Fin.foldl_succ_last]
    simp only [LSTMSpec.stateRec]
    rw [← ih (fun b t => x b t.castSucc)]

lemma gru_fold_eq_rec {nin nh B : ℕ} (cell : GRUCell nin nh) :
    ∀ {T : ℕ} (x : Fin B → Fin T → Fin nin → ℝ),
      Fin.foldl T (fun h seq => cell.forwardB (fun b => x b seq) h)
          (fun _ _ => 0)
        = GRUSpec.stateRec cell T x := by
  intro T
  induction T with
  | zero => intro x; simp [GRUSpec.stateRec]
  | succ T ih =>
    intro x
    rw [Fin.foldl_succ_last]
    simp only [GRUSpec.stateRec]
    rw [← ih (fun b t => x b t.castSucc)]

lemma lstm_rec_row {nin nh B : ℕ} (cell : LSTMCell nin nh) :
    ∀ {T : ℕ} (x : Fin B → Fin T → Fin nin → ℝ) (i : Fin B),
      (LSTMSpec.stateRec cell T x).1 i
          = (LSTMSpec.stateRec (B := 1) cell T (fun _ t => x i t)).1 0
        ∧ (LSTMSpec.stateRec cell T x).2 i
          = (LSTMSpec.stateRec (B := 1) cell T (fun _ t => x i t)).2 0 := by
  intro T
  induction T with
  | zero => intro x i; exact ⟨rfl, rfl⟩
  | succ T ih =>
    intro x i
    obtain ⟨h1, h2⟩ := ih (fun b t => x b t.castSucc) i
    simp only [LSTMSpec.stateRec, LSTMCell.forwardB]
    rw [h1, h2]
    exact ⟨rfl, rfl⟩

lemma gru_rec_row {nin nh B : ℕ} (cell : GRUCell nin nh) :
    ∀ {T : ℕ} (x : Fin B → Fin T → Fin nin → ℝ) (i : Fin B),
      GRUSpec.stateRec cell T x i
        = GRUSpec.stateRec (B := 1) cell T (fun _ t => x i t) 0 := by
  intro T
  induction T with
  | zero => intro x i; rfl
  | succ T ih =>
    intro x i
    have h1 := ih (fun b t => x b t.castSucc) i
    simp only [GRUSpec.stateRec, GRUCell.forwardB]
    rw [h1]

lemma lstmInitScale_nonneg (nh : ℕ) : 0 ≤ lstmInitScale nh :=
  Real.sqrt_nonneg _

lemma scale_bound {s u : ℝ} (hs : 0 ≤ s) (hu : |u| ≤ 1) : |s * u| ≤ s := by
  rw [abs_mul, abs_of_nonneg hs]
  calc s * |u| ≤ s * 1 := mul_le_mul_of_nonneg_left hu hs
  _ = s := mul_one s

/-! ## Concrete fixtures for witnesses and counterexamples -/

/-- A Linear layer with all parameters zero. -/
def zeroLin (inF outF : ℕ) : Linear inF outF := ⟨fun _ _ => 0, fun _ => 0⟩

/-- A tiny concrete LSTM model (input 1, hidden 1, output 1, all weights 0). -/
def lstmW : LSTMModel 1 1 1 := ⟨⟨zeroLin 1 (4 * 1), zeroLin 1 (4 * 1)⟩, zeroLin 1 1⟩

/-- A tiny concrete GRU model (input 1, hidden 1, output 1, all weights 0). -/
def gruW : GRUModel 1 1 1 :=
  ⟨⟨zeroLin 1 1, zeroLin 1 1, zeroLin 1 1, zeroLin 1 1, zeroLin 1 1, zeroLin 1 1⟩,
   zeroLin 1 1⟩

/-- A concrete batch of one sequence of length one (input width 1). -/
def xW : Fin 1 → Fin 1 → Fin 1 → ℝ := fun _ _ _ => 1

/-- A concrete single-step batch whose last-dimension width 2 differs from
the configured input size 1. -/
def xW2 : Fin 1 → Fin 1 → Fin 2 → ℝ := fun _ _ _ => 1

/-- A concrete zero-length-sequence batch whose last-dimension width 2
differs from the configured input size 1. -/
def xW0 : Fin 1 → Fin 0 → Fin 2 → ℝ := fun _ _ _ => 0

/-- A concrete single batch row of input width 1. -/
def xWrow : Fin 1 → Fin 1 → ℝ := fun _ _ => 1

/-- The all-zero unit draw for a 1×1 LSTM cell. -/
def zeroDraw : LSTMDraw 1 1 := ⟨fun _ _ => 0, fun _ => 0, fun _ _ => 0, fun _ => 0⟩

/-! ## Claim theorems -/

/-- C1: one `LSTMCell.forward` step computes `gates` as the sum of the
x-projection of `x_t` and the h-projection of `h_{t-1}`, splits the result
into four equal contiguous blocks in the fixed order i, f, g, o, applies
sigmoid to i, f, o and tanh to g, and returns
`c_t = f ⊙ c_{t-1} + i ⊙ g` and `h_t = o ⊙ tanh(c_t)`, per batch row,
exactly as §4.3 of the spec states. -/
theorem lstm_step_matches_spec {B nin nh : ℕ} (cell : LSTMCell nin nh)
    (x : Fin B → Fin nin → ℝ) (h c : Fin B → Fin nh → ℝ)
    (b : Fin B) (j : Fin nh) :
    (cell.forwardB x h c).2 b j = LSTMSpec.c_t cell (x b) (h b) (c b) j
      ∧ (cell.forwardB x h c).1 b j = LSTMSpec.h_t cell (x b) (h b) (c b) j := by
  have hc : cell.c_t (x b) (h b) (c b) j
      = LSTMSpec.c_t cell (x b) (h b) (c b) j := by
    unfold LSTMCell.c_t LSTMCell.f_t LSTMCell.i_t LSTMCell.candidate_c_t
      LSTMSpec.c_t
    rw [chunk4_c0, chunk4_c1, chunk4_c2]
    rfl
  constructor
  · exact hc
  · show cell.o_t (x b) (h b) j * Real.tanh (cell.c_t (x b) (h b) (c b) j) = _
    unfold LSTMSpec.h_t LSTMCell.o_t
    rw [chunk4_c3, hc]
    rfl

/-- C2: one `GRUCell.forward` step computes the update gate
`z_t = sigmoid(Wxz·x_t + Whz·h_{t-1})`, the reset gate
`r_t = sigmoid(Wxr·x_t + Whr·h_{t-1})`, the candidate
`tanh(Wxh·x_t + Whh·(r_t ⊙ h_{t-1}))` — the reset gate attenuating the
previous hidden state before it enters the candidate — and returns
`h_t = z_t ⊙ h_{t-1} + (1 - z_t) ⊙ candidate`, per batch row, with no
separate memory vector, exactly as §4.4 of the spec states. -/
theorem gru_step_matches_spec {B nin nh : ℕ} (cell : GRUCell nin nh)
    (x : Fin B → Fin nin → ℝ) (h : Fin B → Fin nh → ℝ)
    (b : Fin B) (j : Fin nh) :
    cell.forwardB x h b j = GRUSpec.h_t cell (x b) (h b) j := rfl

/-- C4: for a batch of equal-length sequences, the models initialize all
carried state vectors to zero, invoke the cell once per time step in
strictly increasing index order threading the returned state into the
next call (the recursion `stateRec` of §4.5), and the model output is
exactly one affine projection of the final hidden state with no
activation applied. -/
theorem sequence_reduction_correct :
    (∀ (nin nh nout B T : ℕ) (m : LSTMModel nin nh nout)
        (x : Fin B → Fin T → Fin nin → ℝ),
        m.forward x = m.fc.applyB (LSTMSpec.stateRec m.lstm T x).1)
      ∧ (∀ (nin nh nout B T : ℕ) (m : GRUModel nin nh nout)
        (x : Fin B → Fin T → Fin nin → ℝ),
        m.forward x = m.fc.applyB (GRUSpec.stateRec m.gru T x)) := by
  constructor
  · intro nin nh nout B T m x
    unfold LSTMModel.forward LSTMModel.states
    rw [lstm_fold_eq_rec]
  · intro nin nh nout B T m x
    unfold GRUModel.forward GRUModel.states
    rw [gru_fold_eq_rec]

/-- C5: two forward passes of the same model kind on equal parameters and
identical input produce identical output (determinism of the forward
computation, stated as a two-run property). -/
theorem forward_deterministic :
    (∀ (nin nh nout B T : ℕ) (m₁ m₂ : LSTMModel nin nh nout),
        m₁.lstm = m₂.lstm → m₁.fc = m₂.fc →
        ∀ x : Fin B → Fin T → Fin nin → ℝ, m₁.forward x = m₂.forward x)
      ∧ (∀ (nin nh nout B T : ℕ) (m₁ m₂ : GRUModel nin nh nout),
        m₁.gru = m₂.gru → m₁.fc = m₂.fc →
        ∀ x : Fin B → Fin T → Fin nin → ℝ, m₁.forward x = m₂.forward x) := by
  constructor
  · intro nin nh nout B T m₁ m₂ h1 h2 x
    unfold LSTMModel.forward LSTMModel.states
    rw [h1, h2]
  · intro nin nh nout B T m₁ m₂ h1 h2 x
    unfold GRUModel.forward GRUModel.states
    rw [h1, h2]

/-- Witness for C5 at a concrete model and input. -/
theorem forward_deterministic_witness :
    LSTMModel.forward lstmW xW = LSTMModel.forward lstmW xW
      ∧ GRUModel.forward gruW xW = GRUModel.forward gruW xW :=
  ⟨forward_deterministic.1 1 1 1 1 1 lstmW lstmW rfl rfl xW,
   forward_deterministic.2 1 1 1 1 1 gruW gruW rfl rfl xW⟩

/-- C6: batch independence — each row of the result of running the
reduction on a whole batch equals the result of running the reduction on
the one-sequence batch holding just that row alone; no information flows
between batch elements. -/
theorem batch_independence :
    (∀ (nin nh nout B T : ℕ) (m : LSTMModel nin nh nout)
        (x : Fin B → Fin T → Fin nin → ℝ) (i : Fin B),
        m.forward x i = LSTMModel.forward (B := 1) m (fun _ t => x i t) 0)
      ∧ (∀ (nin nh nout B T : ℕ) (m : GRUModel nin nh nout)
        (x : Fin B → Fin T → Fin nin → ℝ) (i : Fin B),
        m.forward x i = GRUModel.forward (B := 1) m (fun _ t => x i t) 0) := by
  constructor
  · intro nin nh nout B T m x i
    show m.fc.apply ((m.states x).1 i)
      = m.fc.apply ((LSTMModel.states m (fun _ t => x i t)).1 0)
    apply congrArg
    unfold LSTMModel.states
    rw [lstm_fold_eq_rec, lstm_fold_eq_rec]
    exact (lstm_rec_row m.lstm x i).1
  · intro nin nh nout B T m x i
    show m.fc.apply (m.states x i)
      = m.fc.apply (GRUModel.states m (fun _ t => x i t) 0)
    apply congrArg
    unfold GRUModel.states
    rw [gru_fold_eq_rec, gru_fold_eq_rec]
    exact gru_rec_row m.gru x i

/-- C7: every sigmoid-gated value produced inside a cell step (i, f, o for
the LSTM cell; z, r for the GRU cell) lies strictly in (0, 1), and every
tanh-activated value (the candidate states and tanh of the new memory
state) lies strictly in (-1, 1). -/
theorem gate_ranges :
    (∀ (nin nh : ℕ) (cell : LSTMCell nin nh) (x : Fin nin → ℝ)
        (h : Fin nh → ℝ) (j : Fin nh),
        (0 < cell.i_t x h j ∧ cell.i_t x h j < 1)
          ∧ (0 < cell.f_t x h j ∧ cell.f_t x h j < 1)
          ∧ (0 < cell.o_t x h j ∧ cell.o_t x h j < 1)
          ∧ (-1 < cell.candidate_c_t x h j ∧ cell.candidate_c_t x h j < 1))
      ∧ (∀ (nin nh : ℕ) (cell : LSTMCell nin nh) (x : Fin nin → ℝ)
          (h c : Fin nh → ℝ) (j : Fin nh),
          -1 < Real.tanh (cell.c_t x h c j)
            ∧ Real.tanh (cell.c_t x h c j) < 1)
      ∧ (∀ (nin nh : ℕ) (cell : GRUCell nin nh) (x : Fin nin → ℝ)
          (h : Fin nh → ℝ) (j : Fin nh),
          (0 < cell.z_t x h j ∧ cell.z_t x h j < 1)
            ∧ (0 < cell.r_t x h j ∧ cell.r_t x h j < 1)
            ∧ (-1 < cell.candidate_h_t x h j ∧ cell.candidate_h_t x h j < 1)) := by
  refine ⟨fun nin nh cell x h j => ⟨⟨?_, ?_⟩, ⟨?_, ?_⟩, ⟨?_, ?_⟩, ⟨?_, ?_⟩⟩,
    fun nin nh cell x h c j => ⟨?_, ?_⟩,
    fun nin nh cell x h j => ⟨⟨?_, ?_⟩, ⟨?_, ?_⟩, ⟨?_, ?_⟩⟩⟩ <;>
    first
      | exact sigmoid_pos _
      | exact sigmoid_lt_one _
      | exact neg_one_lt_tanh _
      | exact tanh_lt_one _

/-- C3 counterexample: `GRUCell.__init__` applies no re-initialization, so a
framework-initialized layer entry of `9/10` (legitimate under the
framework's own default for an input-size-1 layer) survives construction
unchanged, while the claimed bound `s = sqrt(3 / hidden_size)` for
`hidden_size = 20` is below `9/10`; hence not every parameter of every
cell is drawn from `[-s, s]`. -/
theorem gru_init_not_variance_scaled :
    (GRUCell.construct 1 20 (constLin (9 / 10) 1 20) (constLin (9 / 10) 1 20)
        (constLin (9 / 10) 1 20) (constLin (1 / 10) 20 20)
        (constLin (1 / 10) 20 20) (constLin (1 / 10) 20 20)).x_z_fc.weight 0 0
      = 9 / 10
    ∧ lstmInitScale 20 < 9 / 10 := by
  refine ⟨rfl, ?_⟩
  unfold lstmInitScale
  rw [show ((20 : ℕ) : ℝ) = 20 from by norm_num]
  rw [Real.sqrt_lt' (by norm_num : (0 : ℝ) < 9 / 10)]
  norm_num

/-- C3 (amended): at construction, `LSTMCell.reset_parameters` draws every
weight and bias element of both of the LSTM cell's projections uniformly
from `[-s, s]` with `s = sqrt(3 / hidden_size)` (here: any unit draw in
`[-1, 1]` lands every parameter in `[-s, s]`), while `GRUCell.__init__`
performs no initialization of its own and stores the six
framework-constructed layers unchanged. -/
theorem parameter_init_correct :
    (∀ (nin nh : ℕ) (u : LSTMDraw nin nh),
        (∀ j i, |u.xw j i| ≤ 1) → (∀ j, |u.xb j| ≤ 1) →
        (∀ j i, |u.hw j i| ≤ 1) → (∀ j, |u.hb j| ≤ 1) →
        ∀ j, (∀ i, |(LSTMCell.reset_parameters nin nh u).x_fc.weight j i|
                ≤ lstmInitScale nh)
          ∧ |(LSTMCell.reset_parameters nin nh u).x_fc.bias j| ≤ lstmInitScale nh
          ∧ (∀ i, |(LSTMCell.reset_parameters nin nh u).h_fc.weight j i|
                ≤ lstmInitScale nh)
          ∧ |(LSTMCell.reset_parameters nin nh u).h_fc.bias j| ≤ lstmInitScale nh)
      ∧ (∀ (nin nh : ℕ) (x_r x_z x_h : Linear nin nh)
          (h_r h_z hr_h : Linear nh nh),
          GRUCell.construct nin nh x_r x_z x_h h_r h_z hr_h
            = ⟨x_r, x_z, x_h, h_r, h_z, hr_h⟩) := by
  constructor
  · intro nin nh u hxw hxb hhw hhb j
    refine ⟨fun i => ?_, ?_, fun i => ?_, ?_⟩
    · exact scale_bound (lstmInitScale_nonneg nh) (hxw j i)
    · exact scale_bound (lstmInitScale_nonneg nh) (hxb j)
    · exact scale_bound (lstmInitScale_nonneg nh) (hhw j i)
    · exact scale_bound (lstmInitScale_nonneg nh) (hhb j)
  · intro nin nh x_r x_z x_h h_r h_z hr_h
    rfl

/-- Witness for the amended C3 at the all-zero unit draw. -/
theorem parameter_init_correct_witness :
    |(LSTMCell.reset_parameters 1 1 zeroDraw).x_fc.bias 0| ≤ lstmInitScale 1 :=
  (parameter_init_correct.1 1 1 zeroDraw
      (fun _ _ => by simp [zeroDraw]) (fun _ => by simp [zeroDraw])
      (fun _ _ => by simp [zeroDraw]) (fun _ => by simp [zeroDraw]) 0).2.1

/-- C8 counterexample: an input with zero time steps never reaches a cell
call, so a batch whose last-dimension width 2 differs from the configured
input size 1 passes through `forward` without raising any error — the
claim's universal statement fails on zero-length sequences. -/
theorem shape_mismatch_cex :
    (LSTMModel.forwardChecked lstmW xW0).1
      ≠ Except.error TensorError.shapeMismatch := by
  simp [LSTMModel.forwardChecked, Except.map]

/-- C8 (amended): for every input with at least one time step whose
last-dimension width differs from the configured input size, `forward`
raises `ShapeMismatchError` — the error propagates immediately from the
first cell call, with no implicit reshaping or truncation — and no
partial state mutation occurs: the model object threaded through the call
comes back unchanged. -/
theorem shape_mismatch_error {nin nh nout B T k : ℕ}
    (m : LSTMModel nin nh nout) (x : Fin B → Fin T → Fin k → ℝ)
    (hk : k ≠ nin) (hT : 0 < T) :
    (LSTMModel.forwardChecked m x).1 = Except.error TensorError.shapeMismatch
      ∧ (LSTMModel.forwardChecked m x).2 = m := by
  obtain ⟨T', rfl⟩ : ∃ T', T = T' + 1 := ⟨T - 1, by omega⟩
  unfold LSTMModel.forwardChecked
  rw [foldl_pair]
  constructor
  · show (Fin.foldl (T' + 1)
        (fun a i => a.bind
          (fun s => m.lstm.forwardChecked (fun b => x b i) s.1 s.2))
        (Except.ok (fun _ _ => 0, fun _ _ => 0))).map _
      = Except.error TensorError.shapeMismatch
    rw [foldl_bind_const_error
      (fun s i => m.lstm.forwardChecked (fun b => x b i) s.1 s.2)
      TensorError.shapeMismatch
      (fun s i => dif_neg hk) (fun _ _ => 0, fun _ _ => 0)]
    rfl
  · rfl

/-- Witness for the amended C8: a one-step batch of width 2 against the
input-size-1 model errors and leaves the model unchanged. -/
theorem shape_mismatch_error_witness :
    (LSTMModel.forwardChecked lstmW xW2).1
        = Except.error TensorError.shapeMismatch
      ∧ (LSTMModel.forwardChecked lstmW xW2).2 = lstmW :=
  shape_mismatch_error lstmW xW2 (by decide) (by decide)

/-- C9: a forward pass — cell step, sequence reduction and output
projection — leaves all learned parameters unchanged: threading the
Python object explicitly through every call returns it exactly as
received, and the value computed is the plain forward result. -/
theorem parameters_read_only :
    (∀ (nin nh B : ℕ) (cell : LSTMCell nin nh) (x : Fin B → Fin nin → ℝ)
        (h c : Fin B → Fin nh → ℝ),
        (cell.forwardS x h c).2 = cell
          ∧ (cell.forwardS x h c).1 = cell.forwardB x h c)
      ∧ (∀ (nin nh B : ℕ) (cell : GRUCell nin nh) (x : Fin B → Fin nin → ℝ)
          (h : Fin B → Fin nh → ℝ),
          (cell.forwardS x h).2 = cell
            ∧ (cell.forwardS x h).1 = cell.forwardB x h)
      ∧ (∀ (nin nh nout B T : ℕ) (m : LSTMModel nin nh nout)
          (x : Fin B → Fin T → Fin nin → ℝ),
          (m.forwardS x).2 = m ∧ (m.forwardS x).1 = m.forward x)
      ∧ (∀ (nin nh nout B T : ℕ) (m : GRUModel nin nh nout)
          (x : Fin B → Fin T → Fin nin → ℝ),
          (m.forwardS x).2 = m ∧ (m.forwardS x).1 = m.forward x) := by
  refine ⟨fun _ _ _ _ _ _ _ => ⟨rfl, rfl⟩, fun _ _ _ _ _ _ => ⟨rfl, rfl⟩,
    ?_, ?_⟩
  · intro nin nh nout B T m x
    unfold LSTMModel.forwardS
    rw [foldl_pair]
    exact ⟨rfl, rfl⟩
  · intro nin nh nout B T m x
    unfold GRUModel.forwardS
    rw [foldl_pair]
    exact ⟨rfl, rfl⟩

/-- C10: calling a cell's `forward` while leaving any previous-state
argument at its `None` default always fails rather than zero-initializing
(the LSTM cell for a missing `h` or `c`, the GRU cell for a missing `h`),
while the sequence-level models construct the zero state themselves and
pass it explicitly, so their runs through the defaultable entry point
always succeed with the plain forward result. -/
theorem cell_default_state_fails :
    (∀ (nin nh B : ℕ) (cell : LSTMCell nin nh) (x : Fin B → Fin nin → ℝ)
        (hidden : Option (Fin B → Fin nh → ℝ) × Option (Fin B → Fin nh → ℝ)),
        hidden.1 = none ∨ hidden.2 = none →
        cell.forwardOpt x hidden = Except.error TensorError.noneState)
      ∧ (∀ (nin nh B : ℕ) (cell : GRUCell nin nh) (x : Fin B → Fin nin → ℝ),
          cell.forwardOpt x none = Except.error TensorError.noneState)
      ∧ (∀ (nin nh nout B T : ℕ) (m : LSTMModel nin nh nout)
          (x : Fin B → Fin T → Fin nin → ℝ),
          m.forwardViaOpt x = Except.ok (m.forward x))
      ∧ (∀ (nin nh nout B T : ℕ) (m : GRUModel nin nh nout)
          (x : Fin B → Fin T → Fin nin → ℝ),
          m.forwardViaOpt x = Except.ok (m.forward x)) := by
  refine ⟨?_, fun _ _ _ _ _ => rfl, ?_, ?_⟩
  · rintro nin nh B cell x ⟨h?, c?⟩ (h | h)
    · cases h; cases c? <;> rfl
    · cases h; cases h? <;> rfl
  · intro nin nh nout B T m x
    show (Fin.foldl T (fun st seq => st.bind (fun s =>
          Except.ok (m.lstm.forwardB (fun b => x b seq) s.1 s.2)))
        (Except.ok (fun _ _ => 0, fun _ _ => 0))).map
        (fun s => m.fc.applyB s.1)
      = Except.ok (m.forward x)
    rw [foldl_bind_ok]
    rfl
  · intro nin nh nout B T m x
    show (Fin.foldl T (fun st seq => st.bind (fun s =>
          Except.ok (m.gru.forwardB (fun b => x b seq) s)))
        (Except.ok (fun _ _ => 0))).map (fun s => m.fc.applyB s)
      = Except.ok (m.forward x)
    rw [foldl_bind_ok]
    rfl

/-- Witness for C10 at a concrete cell, model and input. -/
theorem cell_default_state_fails_witness :
    LSTMCell.forwardOpt (B := 1) lstmW.lstm xWrow (none, none)
        = Except.error TensorError.noneState
      ∧ LSTMModel.forwardViaOpt lstmW xW = Except.ok (LSTMModel.forward lstmW xW) :=
  ⟨cell_default_state_fails.1 1 1 1 lstmW.lstm xWrow (none, none) (Or.inl rfl),
   (cell_default_state_fails.2.2.1) 1 1 1 1 1 lstmW xW⟩
